import Mathlib

/-!
Verification of the Kubecraft provisioning / lifecycle core.

This file shallowly embeds the Go functions of the repository
(`internal/k8s/server.go`, `internal/registration/handler.go`, the
validator in package `registration`, the RBAC / user management helpers,
and `internal/cli/server/{create,delete}.go`) as executable Lean
definitions, and proves the frozen claims about them.

Modelling conventions:
  * Go strings are Lean `String`s; `for _, r := range s` iterates over
    `s.data` (the decoded runes), `len s` is the UTF-8 byte length
    (`goLen s.data` below), and `s[0]` is the first byte
    (`utf8FirstByte` of the first rune).
  * Go `int32` / `int64` values are `Int` (no arithmetic in the sources
    comes near the 32/64-bit boundaries); Kubernetes resource quantities
    (always non-negative) are `Nat`, so that Go's truncating division on
    non-negative values is `Nat` division.
  * Calls to the Kubernetes API server are given the API's deterministic
    object-store semantics: a namespaced create fails exactly when an
    object of that name already exists, and a get / delete / update fails
    exactly when it is absent.  Transport-level failures are not modelled.
-/

namespace Kubecraft

/-! ## Constants (internal/config/constants.go) -/

def MaxUsers : Nat := 15

def McNodePortRangeMin : Int := 30000
def McNodePortRangeMax : Int := 30015

/-- `NamespacePrefix` in constants.go (suffix `Str` added to the Lean name
only to satisfy lexical constraints of this development). -/
def NamespacePrefixStr : String := "mc-"

def CommonLabelKey : String := "app"
def CommonLabelValue : String := "kubecraft"
def CommonLabelValuePod : String := "minecraft"

def UserRoleName : String := "minecraft-manager"
def CapacityCheckerBinding : String := "kc-users-capacity-check"

/-- `ServerMemoryLimit = "4Gi"` in constants.go, converted to MiB:
4Gi = 4 * 1024 MiB. -/
def serverMemoryLimitMiB : Int := 4 * 1024

def MinServerNameLength : Nat := 3
def MaxServerNameLength : Nat := 16

def MinecraftPort : Int := 25565

/-- `CapacityThreshold` — 4GB in MiB, minimum free RAM to allow creation. -/
def CapacityThreshold : Int := 4096

/-- `TotalAvailableRAM` — 14GB in MiB, total RAM for workloads. -/
def TotalAvailableRAM : Int := 14336

def ReservedUserNames : List String :=
  ["system", "admin", "root", "default", "kube-system", "kube-public",
   "kube-node-lease", "kubecraft", "kubecraft-system"]

/-! ## Go string primitives -/

/-- Number of bytes of the UTF-8 encoding of one rune. -/
def charUtf8Size (c : Char) : Nat :=
  if c.toNat < 0x80 then 1
  else if c.toNat < 0x800 then 2
  else if c.toNat < 0x10000 then 3
  else 4

/-- Go `len(s)`: the UTF-8 byte length of the string. -/
def goLen (s : List Char) : Nat :=
  (s.map charUtf8Size).sum

/-- The first byte of the UTF-8 encoding of a rune (what Go's `s[0]`
reads when `c` is the first rune of `s`). -/
def utf8FirstByte (c : Char) : Nat :=
  if c.toNat < 0x80 then c.toNat
  else if c.toNat < 0x800 then 0xC0 + c.toNat / 64
  else if c.toNat < 0x10000 then 0xE0 + c.toNat / 4096
  else 0xF0 + c.toNat / 262144

/-! ## Username validation (registration.ValidateUsername) -/

/-- The rune test inside `ValidateUsername`'s loop:
`(r >= 'a' && r <= 'z') || (r >= '0' && r <= '9')`. -/
def usernameCharOk (c : Char) : Bool :=
  (0x61 ≤ c.toNat && c.toNat ≤ 0x7A) || (0x30 ≤ c.toNat && c.toNat ≤ 0x39)

/-- Go's `username[0] < 'a' || username[0] > 'z'` check, negated:
the first *byte* of the string is an ASCII lowercase letter.
(`ValidateUsername` only reaches this check on non-empty strings.) -/
def goFirstByteIsLowerAZ (s : List Char) : Bool :=
  match s with
  | [] => false
  | c :: _ => 0x61 ≤ utf8FirstByte c && utf8FirstByte c ≤ 0x7A

def usernameLengthMsg : String := "username must be 3-16 characters long"
def usernameCharsetMsg : String := "username must only contain lowercase letters and numbers"
def usernameStartMsg : String := "username must start with a lowercase letter"
def usernameReservedMsg : String := "username is reserved"

/-- `registration.ValidateUsername`: `none` means the name is accepted,
`some m` is the returned error message. -/
def ValidateUsername (username : String) : Option String :=
  if goLen username.data < 3 || goLen username.data > 16 then
    some usernameLengthMsg
  else if !(username.data.all usernameCharOk) then
    some usernameCharsetMsg
  else if !(goFirstByteIsLowerAZ username.data) then
    some usernameStartMsg
  else if ReservedUserNames.contains username then
    some usernameReservedMsg
  else
    none

/-! ### The spec's four tenant-name format rules, as predicates -/

/-- Rule 1 of the spec: length between 3 and 16 (the source measures
UTF-8 bytes; for names obeying the character-set rule this coincides
with the rune count). -/
def specRuleLength (u : String) : Prop :=
  3 ≤ goLen u.data ∧ goLen u.data ≤ 16

/-- Rule 2: every character a lowercase ASCII letter or digit. -/
def specRuleCharset (u : String) : Prop :=
  ∀ c ∈ u.data, usernameCharOk c = true

/-- Rule 3: the first character is a lowercase ASCII letter. -/
def specRuleStart (u : String) : Prop :=
  match u.data with
  | [] => False
  | c :: _ => 0x61 ≤ c.toNat ∧ c.toNat ≤ 0x7A

/-- Rule 4: the name is not in the reserved-name set. -/
def specRuleNotReserved (u : String) : Prop :=
  ¬ u ∈ ReservedUserNames

/-- All four tenant-name format rules hold. -/
def usernameRulesOk (u : String) : Prop :=
  specRuleLength u ∧ specRuleCharset u ∧ specRuleStart u ∧ specRuleNotReserved u

instance (u : String) : Decidable (specRuleLength u) := by
  unfold specRuleLength; infer_instance

instance (u : String) : Decidable (specRuleCharset u) := by
  unfold specRuleCharset; infer_instance

instance (u : String) : Decidable (specRuleStart u) := by
  unfold specRuleStart
  match u.data with
  | [] => exact inferInstanceAs (Decidable False)
  | c :: _ => exact inferInstanceAs (Decidable (_ ∧ _))

instance (u : String) : Decidable (specRuleNotReserved u) := by
  unfold specRuleNotReserved; infer_instance

instance (u : String) : Decidable (usernameRulesOk u) := by
  unfold usernameRulesOk; infer_instance

/-- The returned message names a rule the string actually violates. -/
def msgNamesViolatedRule (u : String) (m : String) : Prop :=
  (m = usernameLengthMsg ∧ ¬ specRuleLength u) ∨
  (m = usernameCharsetMsg ∧ ¬ specRuleCharset u) ∨
  (m = usernameStartMsg ∧ ¬ specRuleStart u) ∨
  (m = usernameReservedMsg ∧ ¬ specRuleNotReserved u)

/-! ### Lemmas about `ValidateUsername` -/

theorem goLen_nil : goLen [] = 0 := rfl

theorem ne_nil_of_goLen (s : List Char) (h : 3 ≤ goLen s) : s ≠ [] := by
  intro hs
  rw [hs, goLen_nil] at h
  omega

theorem usernameCharOk_ascii (c : Char) (h : usernameCharOk c = true) :
    c.toNat < 0x80 := by
  unfold usernameCharOk at h
  simp only [Bool.or_eq_true, Bool.and_eq_true, decide_eq_true_eq] at h
  omega

theorem utf8FirstByte_ascii (c : Char) (h : c.toNat < 0x80) :
    utf8FirstByte c = c.toNat := by
  unfold utf8FirstByte
  rw [if_pos h]

theorem goFirstByte_iff_of_charset (c : Char) (cs : List Char)
    (hchar : usernameCharOk c = true) :
    goFirstByteIsLowerAZ (c :: cs) = true ↔ (0x61 ≤ c.toNat ∧ c.toNat ≤ 0x7A) := by
  have hascii : c.toNat < 0x80 := usernameCharOk_ascii c hchar
  simp only [goFirstByteIsLowerAZ, utf8FirstByte_ascii c hascii, Bool.and_eq_true,
    decide_eq_true_eq]

theorem validateUsername_eq_none_iff (u : String) :
    ValidateUsername u = none ↔ usernameRulesOk u := by
  unfold ValidateUsername usernameRulesOk
  by_cases h1 : (goLen u.data < 3 || goLen u.data > 16) = true
  · rw [if_pos h1]
    simp only [Bool.or_eq_true, decide_eq_true_eq] at h1
    constructor
    · intro h; exact absurd h (by simp)
    · rintro ⟨⟨hlo, hhi⟩, -⟩
      rcases h1 with h | h
      · exact absurd hlo (by omega)
      · exact absurd hhi (by omega)
  · rw [if_neg h1]
    simp only [Bool.or_eq_true, decide_eq_true_eq, not_or, not_lt] at h1
    have hlen : specRuleLength u := ⟨by omega, by omega⟩
    have hne : u.data ≠ [] := ne_nil_of_goLen u.data hlen.1
    obtain ⟨c, cs, hu⟩ := List.exists_cons_of_ne_nil hne
    by_cases h2 : (u.data.all usernameCharOk) = true
    · rw [if_neg (by simp [h2])]
      have hchar : specRuleCharset u := by
        intro x hx
        exact List.all_eq_true.mp h2 x hx
      have hc : usernameCharOk c = true := hchar c (by rw [hu]; exact List.mem_cons_self c cs)
      by_cases h3 : goFirstByteIsLowerAZ u.data = true
      · rw [if_neg (by simp [h3])]
        have hstart : specRuleStart u := by
          unfold specRuleStart
          rw [hu]
          exact (goFirstByte_iff_of_charset c cs hc).mp (hu ▸ h3)
        by_cases h4 : ReservedUserNames.contains u = true
        · rw [if_pos h4]
          constructor
          · intro h; exact absurd h (by simp)
          · rintro ⟨-, -, -, hres⟩
            exact absurd (List.elem_iff.mp h4) hres
        · rw [if_neg h4]
          refine iff_of_true rfl ⟨hlen, hchar, hstart, ?_⟩
          intro hmem
          exact h4 (List.elem_iff.mpr hmem)
      · rw [if_pos (by simp [Bool.not_eq_true] at h3 ⊢; exact h3)]
        constructor
        · intro h; exact absurd h (by simp)
        · rintro ⟨-, -, hstart, -⟩
          unfold specRuleStart at hstart
          rw [hu] at hstart h3
          exact absurd ((goFirstByte_iff_of_charset c cs hc).mpr hstart) h3
    · rw [if_pos (by simp [Bool.not_eq_true] at h2 ⊢; exact h2)]
      constructor
      · intro h; exact absurd h (by simp)
      · rintro ⟨-, hchar, -⟩
        exact absurd (List.all_eq_true.mpr hchar) h2

theorem validateUsername_some_names_rule (u : String) (m : String)
    (h : ValidateUsername u = some m) : msgNamesViolatedRule u m := by
  unfold ValidateUsername at h
  unfold msgNamesViolatedRule
  by_cases h1 : (goLen u.data < 3 || goLen u.data > 16) = true
  · rw [if_pos h1] at h
    left
    refine ⟨(Option.some.injEq _ _ ▸ h).symm, ?_⟩
    simp only [Bool.or_eq_true, decide_eq_true_eq] at h1
    unfold specRuleLength
    rcases h1 with h1 | h1 <;> omega
  · rw [if_neg h1] at h
    simp only [Bool.or_eq_true, decide_eq_true_eq, not_or, not_lt] at h1
    have hne : u.data ≠ [] := ne_nil_of_goLen u.data (by omega)
    obtain ⟨c, cs, hu⟩ := List.exists_cons_of_ne_nil hne
    by_cases h2 : (u.data.all usernameCharOk) = true
    · rw [if_neg (by simp [h2])] at h
      have hchar : ∀ x ∈ u.data, usernameCharOk x = true := List.all_eq_true.mp h2
      have hc : usernameCharOk c = true := hchar c (by rw [hu]; exact List.mem_cons_self c cs)
      by_cases h3 : goFirstByteIsLowerAZ u.data = true
      · rw [if_neg (by simp [h3])] at h
        by_cases h4 : ReservedUserNames.contains u = true
        · rw [if_pos h4] at h
          right; right; right
          refine ⟨(Option.some.injEq _ _ ▸ h).symm, ?_⟩
          unfold specRuleNotReserved
          simp only [not_not]
          exact List.elem_iff.mp h4
        · rw [if_neg h4] at h
          exact absurd h (by simp)
      · rw [if_pos (by simp [Bool.not_eq_true] at h3 ⊢; exact h3)] at h
        right; right; left
        refine ⟨(Option.some.injEq _ _ ▸ h).symm, ?_⟩
        unfold specRuleStart
        rw [hu] at h3 ⊢
        intro hstart
        exact h3 ((goFirstByte_iff_of_charset c cs hc).mpr hstart)
    · rw [if_pos (by simp [Bool.not_eq_true] at h2 ⊢; exact h2)] at h
      right; left
      refine ⟨(Option.some.injEq _ _ ▸ h).symm, ?_⟩
      intro hchar
      exact h2 (List.all_eq_true.mpr hchar)

/-! ## Server-name validation (internal/cli/server/create.go ValidateServerName)

`ValidateServerName` classifies runes with Go's `unicode.IsLower` and
`unicode.IsDigit`.  Those are modelled exactly on the Latin-1 range
(Go's fast path): within U+0000..U+00FF the lowercase letters are
a-z, µ (U+00B5), ß..ö (U+00DF..U+00F6) and ø..ÿ (U+00F8..U+00FF), and
the decimal digits are 0-9.  Characters above U+00FF (which Go
classifies by the full Unicode tables) are not modelled and classified
`false` here; every theorem below evaluates these functions only on
Latin-1 characters. -/

def goIsLower (c : Char) : Bool :=
  (0x61 ≤ c.toNat && c.toNat ≤ 0x7A) || c.toNat == 0xB5 ||
    (0xDF ≤ c.toNat && c.toNat ≤ 0xF6) || (0xF8 ≤ c.toNat && c.toNat ≤ 0xFF)

def goIsDigit (c : Char) : Bool :=
  0x30 ≤ c.toNat && c.toNat ≤ 0x39

/-- Go's `unicode.IsLower(rune(name[0]))`: the first *byte* of the string,
widened to a rune (always ≤ 0xFF, so the Latin-1 model is exact here). -/
def goFirstByteIsLower (s : List Char) : Bool :=
  match s with
  | [] => false
  | c :: _ => goIsLower (Char.ofNat (utf8FirstByte c))

def serverNameLengthMsg : String := "server name must be between 3 and 16 characters"
def serverNameCharsetMsg : String := "server name must contain only lowercase letters and numbers"
def serverNameStartMsg : String := "server name must start with a lowercase letter"

/-- `server.ValidateServerName`: `none` means accepted. -/
def ValidateServerName (name : String) : Option String :=
  if goLen name.data < MinServerNameLength || goLen name.data > MaxServerNameLength then
    some serverNameLengthMsg
  else if !(name.data.all (fun r => goIsLower r || goIsDigit r)) then
    some serverNameCharsetMsg
  else if !(goFirstByteIsLower name.data) then
    some serverNameStartMsg
  else
    none

/-! ## Capacity admission (internal/k8s/server.go CheckNodeCapacity) -/

/-- One container of a pod: only its memory request matters to
`CheckNodeCapacity`.  Kubernetes resource quantities are non-negative,
so the byte value is a `Nat`. -/
structure KContainer where
  memRequestBytes : Nat
  deriving DecidableEq

/-- A pod as seen by `CheckNodeCapacity`: its phase, its labels (a map,
modelled as an association list) and its containers. -/
structure KPod where
  phase : String
  labels : List (String × String)
  containers : List KContainer
  deriving DecidableEq

/-- The pod-list query of `CheckNodeCapacity`: label selector
`app=minecraft` and field selector `status.phase=Running`. -/
def podMatchesCapacityQuery (p : KPod) : Bool :=
  p.labels.lookup CommonLabelKey == some CommonLabelValuePod && p.phase == "Running"

/-- `container.Resources.Requests.Memory().Value() / 1024 / 1024`
(Go truncating division on a non-negative value = `Nat` division). -/
def containerMemMiB (c : KContainer) : Nat :=
  c.memRequestBytes / 1024 / 1024

def capacityErrMsg : String := "not enough ram available to allocate to server"

/-- The accumulation loop of `CheckNodeCapacity`: for every listed pod,
for every container, add its memory request in MiB. -/
def totalMemoryRequested (pods : List KPod) : Int :=
  ((pods.filter podMatchesCapacityQuery).map
    (fun p => ((p.containers.map containerMemMiB).sum : Int))).sum

/-- `CheckNodeCapacity`, given the pods visible to the client.
`none` = capacity check passed. -/
def CheckNodeCapacity (pods : List KPod) : Option String :=
  if TotalAvailableRAM - totalMemoryRequested pods < CapacityThreshold then
    some capacityErrMsg
  else
    none

/-- Claim-side description of the summed quantity: total per-container
memory request in MiB over exactly the pods that are in Running phase
and carry the workload-identifying label. -/
def specRunningLabeledMiB (pods : List KPod) : Int :=
  ((pods.filter (fun p =>
      p.phase == "Running" && p.labels.lookup CommonLabelKey == some CommonLabelValuePod)).map
    (fun p => ((p.containers.map containerMemMiB).sum : Int))).sum

/-! ## Port allocation (internal/k8s/server.go AllocateNodePort) -/

structure KServicePort where
  portName : String
  port : Int
  targetPort : Int
  nodePort : Int
  deriving DecidableEq

structure KService where
  name : String
  labels : List (String × String)
  selector : List (String × String)
  ports : List KServicePort
  deriving DecidableEq

/-- The service-list query of `AllocateNodePort`: label selector
`app=kubecraft` (config.CommonLabelSelector). -/
def svcMatchesCommonLabel (s : KService) : Bool :=
  s.labels.lookup CommonLabelKey == some CommonLabelValue

/-- The `occupiedPorts` set built by `AllocateNodePort`: every non-zero
`NodePort` of every port of every listed (labeled) service. -/
def occupiedPorts (svcs : List KService) : List Int :=
  ((svcs.filter svcMatchesCommonLabel).map
    (fun s => (s.ports.map (fun p => p.nodePort)).filter (fun np => np != 0))).flatten

/-- The scan loop `for port := min; port <= max; port++`: returns the
first port in `[p, p + n)` not contained in `occupied`. -/
def portScan (occupied : List Int) (p : Int) : Nat → Option Int
  | 0 => none
  | n + 1 =>
    if !(occupied.contains p) then some p
    else portScan occupied (p + 1) n

def exhaustedMsg : String := "no available ports found in range 30000-30015"

/-- `AllocateNodePort`, given the labeled services visible to the client. -/
def AllocateNodePort (svcs : List KService) : Except String Int :=
  match portScan (occupiedPorts svcs) McNodePortRangeMin
      (McNodePortRangeMax - McNodePortRangeMin + 1).toNat with
  | some p => .ok p
  | none => .error exhaustedMsg

/-- Claim-side predicate: port `q` is assigned as a NodePort on one of
the labeled services. -/
def specAssigned (svcs : List KService) (q : Int) : Prop :=
  ∃ s ∈ svcs, svcMatchesCommonLabel s = true ∧ ∃ sp ∈ s.ports, sp.nodePort = q

/-! ### Lemmas for C1 and C2 -/

theorem totalMemoryRequested_eq_spec (pods : List KPod) :
    totalMemoryRequested pods = specRunningLabeledMiB pods := by
  unfold totalMemoryRequested specRunningLabeledMiB
  congr 2
  exact List.filter_congr
    (fun p _ => by unfold podMatchesCapacityQuery; rw [Bool.and_comm])

theorem portScan_some (occupied : List Int) (n : Nat) (p q : Int)
    (h : portScan occupied p n = some q) :
    p ≤ q ∧ q < p + n ∧ occupied.contains q = false ∧
      ∀ r, p ≤ r → r < q → occupied.contains r = true := by
  induction n generalizing p with
  | zero => cases h
  | succ n ih =>
    unfold portScan at h
    by_cases hc : occupied.contains p = true
    · rw [if_neg (by rw [hc]; decide)] at h
      obtain ⟨h1, h2, h3, h4⟩ := ih (p + 1) h
      refine ⟨by omega, by push_cast at h2 ⊢; omega, h3, ?_⟩
      intro r hr1 hr2
      rcases eq_or_lt_of_le hr1 with rfl | hr
      · exact hc
      · exact h4 r (by omega) hr2
    · rw [if_pos (by simp [Bool.not_eq_true] at hc ⊢; exact hc)] at h
      injection h with hpq
      subst hpq
      refine ⟨le_refl p, by push_cast; omega, by simpa using hc, ?_⟩
      intro r hr1 hr2
      exact absurd hr1 (by omega)

theorem portScan_none (occupied : List Int) (n : Nat) (p : Int)
    (h : portScan occupied p n = none) :
    ∀ r, p ≤ r → r < p + n → occupied.contains r = true := by
  induction n generalizing p with
  | zero =>
    intro r h1 h2
    push_cast at h2
    omega
  | succ n ih =>
    unfold portScan at h
    by_cases hc : occupied.contains p = true
    · rw [if_neg (by rw [hc]; decide)] at h
      intro r h1 h2
      rcases eq_or_lt_of_le h1 with rfl | hr
      · exact hc
      · exact ih (p + 1) h r (by omega) (by push_cast at h2 ⊢; omega)
    · rw [if_pos (by simp [Bool.not_eq_true] at hc ⊢; exact hc)] at h
      exact absurd h (by simp)

theorem mem_occupiedPorts_iff (svcs : List KService) (q : Int) (hq : q ≠ 0) :
    (occupiedPorts svcs).contains q = true ↔ specAssigned svcs q := by
  unfold occupiedPorts specAssigned
  rw [List.elem_iff, List.mem_flatten]
  constructor
  · rintro ⟨l, hl, hql⟩
    obtain ⟨s, hsf, rfl⟩ := List.mem_map.mp hl
    obtain ⟨hs, hmatch⟩ := List.mem_filter.mp hsf
    obtain ⟨hqm, -⟩ := List.mem_filter.mp hql
    obtain ⟨sp, hsp, hspq⟩ := List.mem_map.mp hqm
    exact ⟨s, hs, hmatch, sp, hsp, hspq⟩
  · rintro ⟨s, hs, hmatch, sp, hsp, hspq⟩
    refine ⟨_, List.mem_map.mpr ⟨s, List.mem_filter.mpr ⟨hs, hmatch⟩, rfl⟩, ?_⟩
    refine List.mem_filter.mpr ⟨List.mem_map.mpr ⟨sp, hsp, hspq⟩, ?_⟩
    simpa using hq

/-! ## The tenant namespace and the Kubernetes object-store semantics

A tenant namespace holds the services, StatefulSets and
PersistentVolumeClaims of the tenant's workloads.  API calls follow the
API server's deterministic semantics: create fails exactly when an
object of that name exists, get / update / delete fail exactly when it
is absent. -/

/-- A StatefulSet as the claims observe it: object name, labels, desired
replica count (`Spec.Replicas`, a nullable pointer in the source) and
the creation timestamp stamped by the API server.  The fixed pod
template of `CreateServer` (image, env, ports, probes, resource
requests/limits, volume-claim template) is constant in the source and
referenced by no claim, so it is not carried here. -/
structure StatefulSet where
  name : String
  labels : List (String × String)
  replicas : Option Int
  creationTimestamp : Nat
  deriving DecidableEq

structure NamespaceState where
  services : List KService
  statefulSets : List StatefulSet
  pvcs : List String
  deriving DecidableEq

def notFoundErr : String := "not found"
def alreadyExistsErr : String := "already exists"

def svcCreate (ns : NamespaceState) (svc : KService) : NamespaceState × Option String :=
  if ns.services.any (fun s => s.name == svc.name) then (ns, some alreadyExistsErr)
  else ({ ns with services := ns.services ++ [svc] }, none)

def svcDelete (ns : NamespaceState) (name : String) : NamespaceState × Option String :=
  if ns.services.any (fun s => s.name == name) then
    ({ ns with services := ns.services.filter (fun s => !(s.name == name)) }, none)
  else (ns, some notFoundErr)

def svcGet (ns : NamespaceState) (name : String) : Option KService :=
  ns.services.find? (fun s => s.name == name)

def stsCreate (ns : NamespaceState) (sts : StatefulSet) : NamespaceState × Option String :=
  if ns.statefulSets.any (fun s => s.name == sts.name) then (ns, some alreadyExistsErr)
  else ({ ns with statefulSets := ns.statefulSets ++ [sts] }, none)

def stsDelete (ns : NamespaceState) (name : String) : NamespaceState × Option String :=
  if ns.statefulSets.any (fun s => s.name == name) then
    ({ ns with statefulSets := ns.statefulSets.filter (fun s => !(s.name == name)) }, none)
  else (ns, some notFoundErr)

def stsGet (ns : NamespaceState) (name : String) : Option StatefulSet :=
  ns.statefulSets.find? (fun s => s.name == name)

def stsUpdate (ns : NamespaceState) (sts : StatefulSet) : NamespaceState × Option String :=
  if ns.statefulSets.any (fun s => s.name == sts.name) then
    ({ ns with statefulSets :=
        ns.statefulSets.map (fun s => if s.name == sts.name then sts else s) }, none)
  else (ns, some notFoundErr)

def pvcDelete (ns : NamespaceState) (name : String) : NamespaceState × Option String :=
  if ns.pvcs.any (fun s => s == name) then
    ({ ns with pvcs := ns.pvcs.filter (fun s => !(s == name)) }, none)
  else (ns, some notFoundErr)

/-! ## Workload lifecycle (internal/k8s/server.go) -/

/-- The NodePort service object `CreateServer` defines. -/
def serverService (serverName username : String) (nodePort : Int) : KService :=
  { name := serverName,
    labels := [(CommonLabelKey, CommonLabelValue)],
    selector := [(CommonLabelKey, CommonLabelValuePod), ("server", serverName),
                 ("user", username)],
    ports := [{ portName := CommonLabelValuePod, port := MinecraftPort,
                targetPort := MinecraftPort, nodePort := nodePort }] }

/-- The StatefulSet object `CreateServer` defines (`now` is the creation
timestamp the API server assigns). -/
def serverStatefulSet (serverName username : String) (now : Nat) : StatefulSet :=
  { name := serverName,
    labels := [(CommonLabelKey, CommonLabelValuePod), ("server", serverName),
               ("user", username)],
    replicas := some 1,
    creationTimestamp := now }

/-- `CreateServer`: create the NodePort service, then the StatefulSet;
if the latter fails, delete the just-created service (discarding the
delete's own result, exactly as the source does with `_ =`). -/
def CreateServer (ns : NamespaceState) (serverName username : String)
    (nodePort : Int) (now : Nat) : NamespaceState × Option String :=
  match svcCreate ns (serverService serverName username nodePort) with
  | (ns1, some e) => (ns1, some ("failed to create server (nodeport service): " ++ e))
  | (ns1, none) =>
    match stsCreate ns1 (serverStatefulSet serverName username now) with
    | (ns2, some e) =>
      ((svcDelete ns2 serverName).1,
        some ("failed to create server (statefulset): " ++ e))
    | (ns2, none) => (ns2, none)

def deleteStsMsg : String := "failed to delete server (statefulset): "
def deleteSvcMsg : String := "failed to delete server (service): "
def deletePvcMsg : String := "failed to delete pvc (service): "

/-- `DeleteServer`: delete the StatefulSet, then the service, then the
PVC `mc-<name>-0`, returning at the first failure with a message naming
the sub-resource. -/
def DeleteServer (ns : NamespaceState) (serverName : String) :
    NamespaceState × Option String :=
  match stsDelete ns serverName with
  | (ns1, some e) => (ns1, some (deleteStsMsg ++ e))
  | (ns1, none) =>
    match svcDelete ns1 serverName with
    | (ns2, some e) => (ns2, some (deleteSvcMsg ++ e))
    | (ns2, none) =>
      match pvcDelete ns2 ("mc-" ++ serverName ++ "-0") with
      | (ns3, some e) => (ns3, some (deletePvcMsg ++ e))
      | (ns3, none) => (ns3, none)

structure ServerInfo where
  name : String
  status : String
  nodePort : Int
  age : Nat
  deriving DecidableEq

/-- How `ListServers` can fail: an API error (the service lookup), or
the out-of-range index access `svc.Spec.Ports[0]` — a runtime panic in
the source, made explicit here. -/
inductive ListErr where
  | apiErr (msg : String)
  | indexOutOfRange (svcName : String)
  deriving DecidableEq

/-- The status derivation of `ListServers`:
`"stopped"` iff `Spec.Replicas != nil && *Spec.Replicas == 0`. -/
def stsStatus (replicas : Option Int) : String :=
  if replicas == some 0 then "stopped" else "running"

def listServersLoop (ns : NamespaceState) : List StatefulSet → Except ListErr (List ServerInfo)
  | [] => .ok []
  | sts :: rest =>
    match svcGet ns sts.name with
    | none =>
      .error (.apiErr ("failed to list servers when getting nodeport (" ++
        sts.name ++ "): " ++ notFoundErr))
    | some svc =>
      match svc.ports with
      | [] => .error (.indexOutOfRange sts.name)
      | sp :: _ =>
        match listServersLoop ns rest with
        | .error e => .error e
        | .ok infos =>
          .ok ({ name := sts.name, status := stsStatus sts.replicas,
                 nodePort := sp.nodePort, age := sts.creationTimestamp } :: infos)

/-- `ListServers` over the StatefulSets of the tenant namespace. -/
def ListServers (ns : NamespaceState) : Except ListErr (List ServerInfo) :=
  listServersLoop ns ns.statefulSets

/-- `ScaleServer`: validate the replica count, get the StatefulSet, set
its replica pointer, update. -/
def ScaleServer (ns : NamespaceState) (serverName : String) (replicas : Int) :
    NamespaceState × Option String :=
  if replicas < 0 || replicas > 1 then
    (ns, some ("invalid number of replicas (" ++ toString replicas ++
      ") for server (" ++ serverName ++ "), must be 0 or 1"))
  else
    match stsGet ns serverName with
    | none => (ns, some ("failed to get server (statefulset): " ++ notFoundErr))
    | some sts =>
      match stsUpdate ns { sts with replicas := some replicas } with
      | (ns1, some e) => (ns1, some ("failed to scale server (statefulset): " ++ e))
      | (ns1, none) => (ns1, none)

/-- `ServerExists`: a StatefulSet get, with NotFound mapped to `false`. -/
def ServerExists (ns : NamespaceState) (serverName : String) : Bool :=
  (stsGet ns serverName).isSome

/-- `executeDelete` (internal/cli/server/delete.go): existence check,
confirmation prompt (`confirmInput` is what the user types), then
`DeleteServer`. -/
def executeDelete (ns : NamespaceState) (serverName confirmInput : String) :
    NamespaceState × Option String :=
  if !(ServerExists ns serverName) then
    (ns, some ("server " ++ serverName ++ " does not exist"))
  else if confirmInput != serverName then
    (ns, none)
  else
    match DeleteServer ns serverName with
    | (ns1, some e) => (ns1, some ("could not delete server: " ++ e))
    | (ns1, none) => (ns1, none)

/-! ## The capacity-checker Authorization List (users.go, part_003)

A `rbacv1.Subject` of the capacity-checker ClusterRoleBinding.  The
source always constructs subjects with `Kind: "ServiceAccount"` (and an
empty APIGroup, constant for ServiceAccount subjects and omitted here);
`slices.Contains` compares all fields. -/
structure Subject where
  kind : String
  name : String
  namespc : String
  deriving DecidableEq

/-- The subject `AddUserToCapacityChecker` builds for a user
(`c.namespace` of the registration client is the user's namespace). -/
def newCapacitySubject (username namespc : String) : Subject :=
  { kind := "ServiceAccount", name := username, namespc := namespc }

def duplicateUserMsg : String := "user already exists in cluster role binding"

/-- The core of `AddUserToCapacityChecker`, acting on the fetched
ClusterRoleBinding's subject list: duplicate check
(`slices.Contains`, full-struct equality), then append. -/
def addUserSubjects (subs : List Subject) (username namespc : String) :
    List Subject × Option String :=
  if subs.contains (newCapacitySubject username namespc) then
    (subs, some duplicateUserMsg)
  else
    (subs ++ [newCapacitySubject username namespc], none)

/-- The filter of `RemoveUserFromCapacityChecker`: drop every subject
whose Name and Namespace both match. -/
def removeUserSubjects (subs : List Subject) (username namespc : String) :
    List Subject :=
  subs.filter (fun s => !(s.name == username && s.namespc == namespc))

/-- `AddUserToCapacityChecker` at the cluster level: `crb` is the
subject list of the `kc-users-capacity-check` ClusterRoleBinding, or
`none` when that object is missing. -/
def AddUserToCapacityChecker (crb : Option (List Subject)) (username namespc : String) :
    Option (List Subject) × Option String :=
  match crb with
  | none =>
    (none, some ("could not find ClusterRoleBinding " ++ CapacityCheckerBinding))
  | some subs =>
    match addUserSubjects subs username namespc with
    | (subs', e) => (some subs', e)

/-- `RemoveUserFromCapacityChecker` at the cluster level. -/
def RemoveUserFromCapacityChecker (crb : Option (List Subject)) (username namespc : String) :
    Option (List Subject) × Option String :=
  match crb with
  | none =>
    (none, some ("could not get ClusterRoleBinding " ++ CapacityCheckerBinding ++
      ": " ++ notFoundErr))
  | some subs => (some (removeUserSubjects subs username namespc), none)

/-- The invariant of the Authorization List: no two subjects share the
same (identity name, namespace) pair. -/
def noDupPairs (subs : List Subject) : Prop :=
  subs.Pairwise (fun a b => ¬(a.name = b.name ∧ a.namespc = b.namespc))

/-! ## Cluster state and the registration handler
(internal/registration/handler.go, pkg/k8s namespace helpers)

The cluster as the onboarding flow sees it.  Namespaced RBAC objects
are (namespace, name) pairs; `issuedTokens` is a ghost log of the
token-request calls made against ServiceAccounts (the API mints a
credential but stores no object), so that "no token is created" is
observable. -/

/-- A Namespace object: its name and its labels. -/
structure KNamespace where
  name : String
  labels : List (String × String)
  deriving DecidableEq

structure ClusterState where
  namespaces : List KNamespace
  serviceAccounts : List (String × String)
  roles : List (String × String)
  roleBindings : List (String × String)
  resourceQuotas : List (String × String)
  crbSubjects : Option (List Subject)
  issuedTokens : List (String × String)
  deriving DecidableEq

/-- `NamespaceExists` (pkg/k8s): a Get of the namespace named
`"mc-" + username` (the prefix is hardcoded there, not taken from
config), with NotFound mapped to `false`. -/
def NamespaceExists (st : ClusterState) (username : String) : Bool :=
  st.namespaces.any (fun n => n.name == "mc-" ++ username)

/-- `CountUserNamespaces` (pkg/k8s): lists namespaces with the label
selector `app=kubecraft` (config.CommonLabelSelector) and returns the
length of the result. -/
def CountUserNamespaces (st : ClusterState) : Nat :=
  (st.namespaces.filter
    (fun n => n.labels.lookup CommonLabelKey == some CommonLabelValue)).length

/-- `CreateNamespace` (pkg/k8s): creates the namespace
`NamespacePrefix + username`, labeled `app=kubecraft` and
`user=<username>`; an AlreadyExists answer from the API becomes the
error `"namespace already exists"`.  (The source then records the new
namespace name on the client; the handler model below passes that
namespace to every subsequent call.) -/
def CreateNamespace (st : ClusterState) (username : String) :
    ClusterState × Option String :=
  let nsName := NamespacePrefixStr ++ username
  if st.namespaces.any (fun n => n.name == nsName) then
    (st, some "namespace already exists")
  else
    ({ st with namespaces := st.namespaces ++
        [{ name := nsName, labels := [("app", CommonLabelValue), ("user", username)] }] },
      none)

/-- `CreateServiceAccount` (users.go): a ServiceAccount named after the
user, in the client's namespace. -/
def CreateServiceAccount (st : ClusterState) (namespc username : String) :
    ClusterState × Option String :=
  if st.serviceAccounts.contains (namespc, username) then
    (st, some "could not create ServiceAccount")
  else
    ({ st with serviceAccounts := st.serviceAccounts ++ [(namespc, username)] }, none)

/-- `CreateRole` (users.go): the fixed `minecraft-manager` Role in the
client's namespace (its rule content is constant and claim-irrelevant). -/
def CreateRole (st : ClusterState) (namespc : String) : ClusterState × Option String :=
  if st.roles.contains (namespc, UserRoleName) then
    (st, some "could not create Role")
  else
    ({ st with roles := st.roles ++ [(namespc, UserRoleName)] }, none)

/-- `CreateRoleBinding` (users.go): `binding-<username>` in the client's
namespace. -/
def CreateRoleBinding (st : ClusterState) (namespc username : String) :
    ClusterState × Option String :=
  if st.roleBindings.contains (namespc, "binding-" ++ username) then
    (st, some "could not create RoleBinding")
  else
    ({ st with roleBindings :=
        st.roleBindings ++ [(namespc, "binding-" ++ username)] }, none)

/-- `CreateResourceQuota` (users.go): `mc-compute-resources` in the
client's namespace. -/
def CreateResourceQuota (st : ClusterState) (namespc : String) :
    ClusterState × Option String :=
  if st.resourceQuotas.contains (namespc, "mc-compute-resources") then
    (st, some "could not create ResourceQuota")
  else
    ({ st with resourceQuotas :=
        st.resourceQuotas ++ [(namespc, "mc-compute-resources")] }, none)

/-- `GenerateToken` (pkg/k8s): a CreateToken call against the
ServiceAccount named `username` in the client's namespace, with the
fixed five-year expiry; it fails when the ServiceAccount is absent and
otherwise returns the API-minted bearer token (opaque here, modelled as
a distinct string), recorded in the ghost log. -/
def GenerateToken (st : ClusterState) (namespc username : String) :
    ClusterState × Except String String :=
  if st.serviceAccounts.contains (namespc, username) then
    ({ st with issuedTokens := st.issuedTokens ++ [(namespc, username)] },
      .ok ("token-" ++ username))
  else
    (st, .error ("error generating token: " ++ notFoundErr))

/-- The JSON response of the registration endpoint. -/
structure RegisterResponse where
  status : String
  username : String
  token : String
  message : String
  deriving DecidableEq

/-- `sendError`: an HTTP status code plus an error-shaped body. -/
def sendError (code : Nat) (message : String) : Nat × RegisterResponse :=
  (code, { status := "error", username := "", token := "", message := message })

/-- `NewRegistrationHandler`'s request handling, after the method check
and JSON decoding (transport concerns of the HTTP layer): validate,
ceiling check, conflict check, create namespace / ServiceAccount / Role
/ RoleBinding / ResourceQuota, register in the capacity checker, issue
the token. -/
def registerHandler (username : String) (st : ClusterState) :
    (Nat × RegisterResponse) × ClusterState :=
  match ValidateUsername username with
  | some msg => (sendError 400 msg, st)
  | none =>
    let count := CountUserNamespaces st
    if MaxUsers ≤ count then
      (sendError 500 ("max user limit reached (" ++ toString count ++ "/" ++
        toString MaxUsers ++ ")"), st)
    else if NamespaceExists st username then
      (sendError 409 "Username already registered", st)
    else
      match CreateNamespace st username with
      | (st1, some e) => (sendError 500 ("failed to create namespace: " ++ e), st1)
      | (st1, none) =>
        let namespc := NamespacePrefixStr ++ username
        match CreateServiceAccount st1 namespc username with
        | (st2, some e) => (sendError 500 ("failed to create serviceaccount: " ++ e), st2)
        | (st2, none) =>
          match CreateRole st2 namespc with
          | (st3, some e) => (sendError 500 ("failed to create role: " ++ e), st3)
          | (st3, none) =>
            match CreateRoleBinding st3 namespc username with
            | (st4, some e) => (sendError 500 ("failed to create rolebinding: " ++ e), st4)
            | (st4, none) =>
              match CreateResourceQuota st4 namespc with
              | (st5, some e) =>
                (sendError 500 ("failed to create resourcequota: " ++ e), st5)
              | (st5, none) =>
                match AddUserToCapacityChecker st5.crbSubjects username namespc with
                | (crb', some e) =>
                  (sendError 500 ("failed to add user to capacity checker: " ++ e),
                    { st5 with crbSubjects := crb' })
                | (crb', none) =>
                  let st6 := { st5 with crbSubjects := crb' }
                  match GenerateToken st6 namespc username with
                  | (st7, .error e) =>
                    (sendError 500 ("failed to generate token: " ++ e), st7)
                  | (st7, .ok token) =>
                    ((201, { status := "success", username := username,
                             token := token, message := "" }), st7)

/-! ## Claim theorems -/

/-- C1: for every set of pods visible to the client, `CheckNodeCapacity`
sums the per-container memory requests (converted to MiB) of exactly the
pods in Running phase carrying the workload-identifying label, and fails
with the insufficient-capacity error iff the fixed total available
memory (14336 MiB) minus that sum is strictly below the fixed threshold
(4096 MiB), which equals the per-workload memory limit of 4Gi; with no
running labeled pods it succeeds. -/
theorem checkNodeCapacity_insufficient_iff (pods : List KPod) :
    ((∃ e, CheckNodeCapacity pods = some e) ↔
        TotalAvailableRAM - specRunningLabeledMiB pods < CapacityThreshold) ∧
    (TotalAvailableRAM = 14336 ∧ CapacityThreshold = 4096 ∧
      CapacityThreshold = serverMemoryLimitMiB) ∧
    (pods.filter (fun p =>
        p.phase == "Running" &&
          p.labels.lookup CommonLabelKey == some CommonLabelValuePod) = [] →
      CheckNodeCapacity pods = none) := by
  refine ⟨?_, ⟨rfl, rfl, rfl⟩, ?_⟩
  · unfold CheckNodeCapacity
    rw [totalMemoryRequested_eq_spec]
    split_ifs with h
    · exact iff_of_true ⟨_, rfl⟩ h
    · constructor
      · rintro ⟨e, he⟩
        exact absurd he (by simp)
      · intro hlt
        exact absurd hlt h
  · intro hempty
    have hzero : specRunningLabeledMiB pods = 0 := by
      unfold specRunningLabeledMiB
      rw [hempty]
      rfl
    unfold CheckNodeCapacity
    rw [totalMemoryRequested_eq_spec, hzero]
    rw [if_neg (by decide)]

/-- Witness for C1: with no pods at all the capacity check passes. -/
theorem checkNodeCapacity_witness : CheckNodeCapacity [] = none :=
  (checkNodeCapacity_insufficient_iff []).2.2 rfl

/-- C2: for every set of labeled services, `AllocateNodePort` returns
the smallest port in [30000, 30015] not assigned as a NodePort on any of
them, and fails with the exhausted-ports error iff every port in the
range is assigned. -/
theorem allocateNodePort_lowest_free (svcs : List KService) :
    (∀ p, AllocateNodePort svcs = .ok p →
        McNodePortRangeMin ≤ p ∧ p ≤ McNodePortRangeMax ∧ ¬ specAssigned svcs p ∧
        ∀ q, McNodePortRangeMin ≤ q → q < p → specAssigned svcs q) ∧
    ((∃ e, AllocateNodePort svcs = .error e) ↔
        ∀ q, McNodePortRangeMin ≤ q → q ≤ McNodePortRangeMax → specAssigned svcs q) := by
  have hmin : McNodePortRangeMin = 30000 := rfl
  have hmax : McNodePortRangeMax = 30015 := rfl
  have hn : (((McNodePortRangeMax - McNodePortRangeMin + 1).toNat : Nat) : Int) = 16 := by
    decide
  constructor
  · intro p hp
    unfold AllocateNodePort at hp
    cases hscan : portScan (occupiedPorts svcs) McNodePortRangeMin
        (McNodePortRangeMax - McNodePortRangeMin + 1).toNat with
    | none =>
      rw [hscan] at hp
      exact absurd hp (by simp)
    | some q =>
      rw [hscan] at hp
      injection hp with hq
      subst hq
      obtain ⟨h1, h2, h3, h4⟩ := portScan_some _ _ _ _ hscan
      rw [hn] at h2
      refine ⟨h1, by rw [hmax]; rw [hmin] at h2; omega, ?_, ?_⟩
      · intro hassigned
        have hne : q ≠ 0 := by rw [hmin] at h1; omega
        rw [(mem_occupiedPorts_iff svcs q hne).mpr hassigned] at h3
        exact absurd h3 (by simp)
      · intro r hr1 hr2
        have hne : r ≠ 0 := by rw [hmin] at hr1; omega
        exact (mem_occupiedPorts_iff svcs r hne).mp (h4 r hr1 hr2)
  · constructor
    · rintro ⟨e, he⟩ q hq1 hq2
      unfold AllocateNodePort at he
      cases hscan : portScan (occupiedPorts svcs) McNodePortRangeMin
          (McNodePortRangeMax - McNodePortRangeMin + 1).toNat with
      | some p =>
        rw [hscan] at he
        exact absurd he (by simp)
      | none =>
        have hcont := portScan_none _ _ _ hscan q hq1
          (by rw [hn]; rw [hmin] at hq1 ⊢; rw [hmax] at hq2; omega)
        have hne : q ≠ 0 := by rw [hmin] at hq1; omega
        exact (mem_occupiedPorts_iff svcs q hne).mp hcont
    · intro hall
      unfold AllocateNodePort
      cases hscan : portScan (occupiedPorts svcs) McNodePortRangeMin
          (McNodePortRangeMax - McNodePortRangeMin + 1).toNat with
      | some q =>
        obtain ⟨h1, h2, h3, h4⟩ := portScan_some _ _ _ _ hscan
        rw [hn] at h2
        have hne : q ≠ 0 := by rw [hmin] at h1; omega
        have hassigned : specAssigned svcs q :=
          hall q h1 (by rw [hmax]; rw [hmin] at h2; omega)
        rw [(mem_occupiedPorts_iff svcs q hne).mpr hassigned] at h3
        exact absurd h3 (by simp)
      | none => exact ⟨_, rfl⟩

/-- Witness for C2: with no services, port 30000 is returned, it is in
range, unassigned, and no smaller in-range port exists. -/
theorem allocateNodePort_witness :
    McNodePortRangeMin ≤ 30000 ∧ 30000 ≤ McNodePortRangeMax ∧
      ¬ specAssigned [] 30000 ∧
      ∀ q, McNodePortRangeMin ≤ q → q < 30000 → specAssigned [] q :=
  (allocateNodePort_lowest_free []).1 30000 rfl

/-- C3: for every username violating one of the four format rules, the
registration handler fails with a 400 validation error whose message
names a violated rule and performs no cluster mutation; conversely
every string satisfying all four rules passes `ValidateUsername`. -/
theorem register_invalid_username_spec (u : String) (st : ClusterState) :
    (¬ usernameRulesOk u →
        (registerHandler u st).2 = st ∧
        ∃ m, ValidateUsername u = some m ∧
          (registerHandler u st).1 = sendError 400 m ∧ msgNamesViolatedRule u m) ∧
    (usernameRulesOk u → ValidateUsername u = none) := by
  constructor
  · intro hbad
    obtain ⟨m, hm⟩ : ∃ m, ValidateUsername u = some m := by
      cases hv : ValidateUsername u with
      | none => exact absurd ((validateUsername_eq_none_iff u).mp hv) hbad
      | some m => exact ⟨m, rfl⟩
    refine ⟨?_, m, hm, ?_, validateUsername_some_names_rule u m hm⟩
    · unfold registerHandler
      rw [hm]
    · unfold registerHandler
      rw [hm]
  · exact (validateUsername_eq_none_iff u).mpr

/-- The cluster before any tenant is onboarded: the administrator has
installed the (empty) Authorization List. -/
def initialCluster : ClusterState :=
  { namespaces := [], serviceAccounts := [], roles := [], roleBindings := [],
    resourceQuotas := [], crbSubjects := some [], issuedTokens := [] }

/-- Witness for C3: `"Alice"` (an uppercase letter) is rejected with the
character-set message and the cluster is untouched. -/
theorem register_invalid_username_witness :
    (registerHandler "Alice" initialCluster).2 = initialCluster ∧
      ∃ m, ValidateUsername "Alice" = some m ∧
        (registerHandler "Alice" initialCluster).1 = sendError 400 m ∧
        msgNamesViolatedRule "Alice" m :=
  (register_invalid_username_spec "Alice" initialCluster).1 (by decide)

/-- C4: `CreateServer` creates the service before the StatefulSet; when
StatefulSet creation fails it deletes the just-created service before
returning the error, so after any failed `CreateServer` call the
services of the namespace are exactly what they were before (no
orphaned endpoint).  The three conjuncts: (any failure leaves the
services untouched); (service fresh, StatefulSet name taken: the
StatefulSet-step error is returned and the whole namespace is restored);
(both fresh: success, with the service and StatefulSet added). -/
theorem createServer_no_orphan (ns : NamespaceState) (serverName username : String)
    (nodePort : Int) (now : Nat) :
    ((CreateServer ns serverName username nodePort now).2.isSome →
        (CreateServer ns serverName username nodePort now).1.services = ns.services) ∧
    (ns.services.any (fun s => s.name == serverName) = false →
      ns.statefulSets.any (fun s => s.name == serverName) = true →
        CreateServer ns serverName username nodePort now =
          (ns, some ("failed to create server (statefulset): " ++ alreadyExistsErr))) ∧
    (ns.services.any (fun s => s.name == serverName) = false →
      ns.statefulSets.any (fun s => s.name == serverName) = false →
        CreateServer ns serverName username nodePort now =
          ({ services := ns.services ++ [serverService serverName username nodePort],
             statefulSets :=
               ns.statefulSets ++ [serverStatefulSet serverName username now],
             pvcs := ns.pvcs }, none)) := by
  cases hsvc : ns.services.any (fun s => s.name == serverName) with
  | true =>
    have hred : CreateServer ns serverName username nodePort now =
        (ns, some ("failed to create server (nodeport service): " ++ alreadyExistsErr)) := by
      unfold CreateServer svcCreate
      simp only [serverService, hsvc, if_true]
    refine ⟨?_, ?_, ?_⟩
    · intro _
      rw [hred]
    · intro h
      exact absurd h (by decide)
    · intro h
      exact absurd h (by decide)
  | false =>
    have hkeep : ns.services.filter (fun s => !(s.name == serverName)) = ns.services := by
      apply List.filter_eq_self.mpr
      intro s hs
      have hf := List.any_eq_false.mp hsvc s hs
      simp only [Bool.not_eq_true] at hf
      simp [hf]
    cases hsts : ns.statefulSets.any (fun s => s.name == serverName) with
    | true =>
      have hred : CreateServer ns serverName username nodePort now =
          ({ services := (ns.services ++
                [serverService serverName username nodePort]).filter
                  (fun s => !(s.name == serverName)),
             statefulSets := ns.statefulSets, pvcs := ns.pvcs },
            some ("failed to create server (statefulset): " ++ alreadyExistsErr)) := by
        unfold CreateServer svcCreate stsCreate svcDelete
        simp [serverService, serverStatefulSet, hsvc, hsts]
      have hfilter : (ns.services ++
          [serverService serverName username nodePort]).filter
            (fun s => !(s.name == serverName)) = ns.services := by
        rw [List.filter_append, hkeep]
        simp [serverService]
      refine ⟨?_, ?_, ?_⟩
      · intro _
        rw [hred, hfilter]
      · intro _ _
        rw [hred, hfilter]
      · intro _ h
        exact absurd h (by decide)
    | false =>
      have hred : CreateServer ns serverName username nodePort now =
          ({ services := ns.services ++ [serverService serverName username nodePort],
             statefulSets :=
               ns.statefulSets ++ [serverStatefulSet serverName username now],
             pvcs := ns.pvcs }, none) := by
        unfold CreateServer svcCreate stsCreate
        simp [serverService, serverStatefulSet, hsvc, hsts]
      refine ⟨?_, ?_, ?_⟩
      · intro hsome
        rw [hred] at hsome
        exact absurd hsome (by simp)
      · intro _ h
        exact absurd h (by decide)
      · intro _ _
        exact hred

/-- A namespace that already holds a StatefulSet named `srv` (but no
service of that name): StatefulSet creation will conflict. -/
def stsTakenNs : NamespaceState :=
  { services := [],
    statefulSets := [{ name := "srv", labels := [], replicas := some 1,
                       creationTimestamp := 0 }],
    pvcs := [] }

/-- Witness for C4: creating `srv` against `stsTakenNs` fails at the
StatefulSet step and leaves the namespace exactly as it was — in
particular no orphaned service. -/
theorem createServer_no_orphan_witness :
    CreateServer stsTakenNs "srv" "alice" 30000 1 =
      (stsTakenNs, some ("failed to create server (statefulset): " ++ alreadyExistsErr)) :=
  ((createServer_no_orphan stsTakenNs "srv" "alice" 30000 1).2.1 (by decide) (by decide))

/-! ### Lemmas for C5 -/

theorem forall2_mem_left {α β : Type} {R : α → β → Prop} {l1 : List α} {l2 : List β}
    (h : List.Forall₂ R l1 l2) {a : α} (ha : a ∈ l1) : ∃ b ∈ l2, R a b := by
  induction h with
  | nil => cases ha
  | cons hr _ ih =>
    rcases List.mem_cons.mp ha with rfl | ha'
    · exact ⟨_, List.mem_cons_self _ _, hr⟩
    · obtain ⟨b, hb, hab⟩ := ih ha'
      exact ⟨b, List.mem_cons_of_mem _ hb, hab⟩

theorem listServersLoop_ok_forall2 (ns : NamespaceState) (l : List StatefulSet)
    (infos : List ServerInfo) (h : listServersLoop ns l = .ok infos) :
    List.Forall₂ (fun i s => i.name = s.name ∧ i.status = stsStatus s.replicas)
      infos l := by
  induction l generalizing infos with
  | nil =>
    unfold listServersLoop at h
    injection h with h
    subst h
    exact List.Forall₂.nil
  | cons sts rest ih =>
    unfold listServersLoop at h
    split at h
    · simp at h
    · split at h
      · simp at h
      · split at h
        · simp at h
        · rename_i infos' hrec
          injection h with h
          subst h
          exact List.Forall₂.cons ⟨rfl, rfl⟩ (ih infos' hrec)

theorem scaleServer_cases (ns : NamespaceState) (serverName : String) (r : Int)
    (hnodup : (ns.statefulSets.map (fun s => s.name)).Nodup) :
    (ScaleServer ns serverName r).1.services = ns.services ∧
    (ScaleServer ns serverName r).1.pvcs = ns.pvcs ∧
    ((ScaleServer ns serverName r).2.isSome → (ScaleServer ns serverName r).1 = ns) ∧
    ((ScaleServer ns serverName r).2 = none →
      (ScaleServer ns serverName r).1.statefulSets =
        ns.statefulSets.map (fun s =>
          if s.name == serverName then { s with replicas := some r } else s)) := by
  by_cases hr : (r < 0 || r > 1) = true
  · have hred : ScaleServer ns serverName r =
        (ns, some ("invalid number of replicas (" ++ toString r ++
          ") for server (" ++ serverName ++ "), must be 0 or 1")) := by
      unfold ScaleServer
      rw [if_pos hr]
    rw [hred]
    exact ⟨rfl, rfl, fun _ => rfl, fun h => absurd h (by simp)⟩
  · cases hget : stsGet ns serverName with
    | none =>
      have hred : ScaleServer ns serverName r =
          (ns, some ("failed to get server (statefulset): " ++ notFoundErr)) := by
        unfold ScaleServer
        rw [if_neg hr, hget]
      rw [hred]
      exact ⟨rfl, rfl, fun _ => rfl, fun h => absurd h (by simp)⟩
    | some sts =>
      have hget' : ns.statefulSets.find? (fun s => s.name == serverName) = some sts :=
        hget
      have hmem : sts ∈ ns.statefulSets := List.mem_of_find?_eq_some hget'
      have hb0 := List.find?_some hget'
      have hname : sts.name = serverName := eq_of_beq hb0
      have hupname : ({ sts with replicas := some r } : StatefulSet).name = serverName :=
        hname
      have hcond : ns.statefulSets.any
          (fun s => s.name == ({ sts with replicas := some r } : StatefulSet).name) = true := by
        apply List.any_eq_true.mpr
        exact ⟨sts, hmem, by simp⟩
      have hred : ScaleServer ns serverName r =
          ({ ns with statefulSets := (ns.statefulSets.map
              (fun s => if s.name == ({ sts with replicas := some r } : StatefulSet).name
                        then { sts with replicas := some r } else s)) }, none) := by
        unfold ScaleServer stsUpdate
        rw [if_neg hr, hget]
        simp only [hcond, if_true]
      rw [hred]
      refine ⟨rfl, rfl, fun h => absurd h (by simp), fun _ => ?_⟩
      simp only [hname]
      apply List.map_congr_left
      intro s hs
      by_cases hsn : (s.name == serverName) = true
      · rw [if_pos hsn, if_pos hsn]
        have hseq : s = sts :=
          List.inj_on_of_nodup_map hnodup hs hmem (by rw [eq_of_beq hsn, hname])
        rw [hseq, hname]
      · rw [if_neg hsn, if_neg hsn]

/-- C5: `Stop` (scale to 0) and `Start` (scale to 1) modify only the
StatefulSet's desired replica count — the services and the storage
claims of the namespace are untouched by `ScaleServer`; `ListServers`
derives each workload's status solely from the desired replica count
(`"stopped"` iff it is 0, else `"running"`); hence after a successful
scale to 0 the workload lists as `"stopped"`, and after a successful
scale to 1 as `"running"`. -/
theorem scale_stop_start_spec (ns : NamespaceState) (serverName : String)
    (hnodup : (ns.statefulSets.map (fun s => s.name)).Nodup) :
    (∀ r, (ScaleServer ns serverName r).1.services = ns.services ∧
          (ScaleServer ns serverName r).1.pvcs = ns.pvcs ∧
          ((ScaleServer ns serverName r).2.isSome →
            (ScaleServer ns serverName r).1 = ns) ∧
          ((ScaleServer ns serverName r).2 = none →
            (ScaleServer ns serverName r).1.statefulSets =
              ns.statefulSets.map (fun s =>
                if s.name == serverName then { s with replicas := some r } else s))) ∧
    (∀ infos, ListServers ns = .ok infos →
        List.Forall₂ (fun i s => i.name = s.name ∧ i.status = stsStatus s.replicas)
          infos ns.statefulSets) ∧
    (stsStatus (some 0) = "stopped" ∧
      ∀ o : Option Int, o ≠ some 0 → stsStatus o = "running") ∧
    (∀ r, (ScaleServer ns serverName r).2 = none →
      ∀ infos, ListServers (ScaleServer ns serverName r).1 = .ok infos →
        ∀ i ∈ infos, i.name = serverName →
          i.status = if r = 0 then "stopped" else "running") := by
  refine ⟨fun r => scaleServer_cases ns serverName r hnodup,
    fun infos h => listServersLoop_ok_forall2 ns ns.statefulSets infos h,
    ⟨rfl, ?_⟩, ?_⟩
  · intro o ho
    unfold stsStatus
    rw [if_neg (by simpa using ho)]
  · intro r hok infos hlist i hi hiname
    obtain ⟨-, -, -, hmap⟩ := scaleServer_cases ns serverName r hnodup
    have hforall := listServersLoop_ok_forall2 _ _ infos hlist
    obtain ⟨s, hs, hname, hstatus⟩ := forall2_mem_left hforall hi
    rw [hmap hok] at hs
    obtain ⟨t, ht, hts⟩ := List.mem_map.mp hs
    by_cases htn : (t.name == serverName) = true
    · rw [if_pos htn] at hts
      rw [hstatus, ← hts]
      have hrep : ({ t with replicas := some r } : StatefulSet).replicas = some r := rfl
      unfold stsStatus
      rw [hrep]
      by_cases hr0 : r = 0
      · subst hr0
        rw [if_pos (by decide), if_pos rfl]
      · rw [if_neg (by simpa using hr0), if_neg hr0]
    · rw [if_neg htn] at hts
      exfalso
      apply htn
      rw [hts, ← hname, hiname]
      exact beq_self_eq_true serverName

/-- A tenant namespace with one complete running workload `srv`. -/
def oneServerNs : NamespaceState :=
  { services :=
      [{ name := "srv",
         labels := [(CommonLabelKey, CommonLabelValue)],
         selector := [],
         ports :=
           [{ portName := "minecraft",
              port := 25565,
              targetPort := 25565,
              nodePort := 30000 }] }],
    statefulSets :=
      [{ name := "srv",
         labels := [],
         replicas := some 1,
         creationTimestamp := 7 }],
    pvcs := ["mc-srv-0"] }

/-- Witness for C5: stopping `srv` in `oneServerNs` succeeds and the
listing afterwards shows it `stopped`. -/
theorem scale_stop_start_witness :
    ({ name := "srv", status := "stopped", nodePort := 30000,
       age := 7 } : ServerInfo).status =
      if (0 : Int) = 0 then "stopped" else "running" :=
  (scale_stop_start_spec oneServerNs "srv" (by simp [oneServerNs])).2.2.2 0 rfl
    [{ name := "srv", status := "stopped", nodePort := 30000, age := 7 }] rfl
    { name := "srv", status := "stopped", nodePort := 30000, age := 7 }
    (List.mem_singleton.mpr rfl) rfl

/-- C6: deleting a workload that does not exist fails with a not-found
error (and no mutation); otherwise `DeleteServer` deletes the
StatefulSet, the service and the storage claim, and each sub-resource
deletion failure is reported with its own distinct message — a later
failure is never masked by an earlier success. -/
theorem deleteServer_spec (ns : NamespaceState) (serverName confirmInput : String) :
    (ServerExists ns serverName = false →
      executeDelete ns serverName confirmInput =
        (ns, some ("server " ++ serverName ++ " does not exist"))) ∧
    (ns.statefulSets.any (fun s => s.name == serverName) = false →
      DeleteServer ns serverName = (ns, some (deleteStsMsg ++ notFoundErr))) ∧
    (ns.statefulSets.any (fun s => s.name == serverName) = true →
      ns.services.any (fun s => s.name == serverName) = false →
      (DeleteServer ns serverName).2 = some (deleteSvcMsg ++ notFoundErr)) ∧
    (ns.statefulSets.any (fun s => s.name == serverName) = true →
      ns.services.any (fun s => s.name == serverName) = true →
      ns.pvcs.any (fun p => p == ("mc-" ++ serverName ++ "-0")) = false →
      (DeleteServer ns serverName).2 = some (deletePvcMsg ++ notFoundErr)) ∧
    (ns.statefulSets.any (fun s => s.name == serverName) = true →
      ns.services.any (fun s => s.name == serverName) = true →
      ns.pvcs.any (fun p => p == ("mc-" ++ serverName ++ "-0")) = true →
      DeleteServer ns serverName =
        ({ services := ns.services.filter (fun s => !(s.name == serverName)),
           statefulSets := ns.statefulSets.filter (fun s => !(s.name == serverName)),
           pvcs := ns.pvcs.filter (fun p => !(p == ("mc-" ++ serverName ++ "-0"))) },
          none)) ∧
    (deleteStsMsg ≠ deleteSvcMsg ∧ deleteStsMsg ≠ deletePvcMsg ∧
      deleteSvcMsg ≠ deletePvcMsg) := by
  refine ⟨?_, ?_, ?_, ?_, ?_, by decide⟩
  · intro h
    unfold executeDelete
    rw [h]
    rfl
  · intro h
    unfold DeleteServer stsDelete
    rw [h]
    rfl
  · intro h1 h2
    unfold DeleteServer stsDelete svcDelete
    simp only [h1, if_true]
    simp only [h2, Bool.false_eq_true, if_false]
  · intro h1 h2 h3
    unfold DeleteServer stsDelete svcDelete pvcDelete
    simp only [h1, h2, if_true]
    simp only [h3, Bool.false_eq_true, if_false]
  · intro h1 h2 h3
    unfold DeleteServer stsDelete svcDelete pvcDelete
    simp only [h1, h2, h3, if_true]

/-- Witness for C6: deleting `srv` from `oneServerNs` (which holds the
StatefulSet, the service and the claim `mc-srv-0`) succeeds and removes
all three. -/
theorem deleteServer_witness :
    DeleteServer oneServerNs "srv" =
      ({ services := oneServerNs.services.filter (fun s => !(s.name == "srv")),
         statefulSets := oneServerNs.statefulSets.filter (fun s => !(s.name == "srv")),
         pvcs := oneServerNs.pvcs.filter (fun p => !(p == ("mc-" ++ "srv" ++ "-0"))) },
        none) :=
  (deleteServer_spec oneServerNs "srv" "srv").2.2.2.2.1 rfl rfl rfl

/-! ### Lemmas for C7 / C8 -/

theorem removePred_iff (s : Subject) (username namespc : String) :
    (!(s.name == username && s.namespc == namespc)) = true ↔
      ¬(s.name = username ∧ s.namespc = namespc) := by
  cases hb1 : s.name == username <;> cases hb2 : s.namespc == namespc <;>
    simp_all

/-- C7: starting from an Authorization List (the subject list of the
capacity-checker ClusterRoleBinding, whose entries are the
ServiceAccount identities of tenants) with no duplicate
(name, namespace) pair, both Add and Remove preserve that invariant;
Add appends the new subject only when an equal subject is not already
present, and when it is present Add fails with the surfaced duplicate
error, leaving the list unchanged. -/
theorem capacityChecker_noDup (subs : List Subject) (username namespc : String)
    (hsa : ∀ s ∈ subs, s.kind = "ServiceAccount") (hnd : noDupPairs subs) :
    noDupPairs (removeUserSubjects subs username namespc) ∧
    RemoveUserFromCapacityChecker (some subs) username namespc =
      (some (removeUserSubjects subs username namespc), none) ∧
    (newCapacitySubject username namespc ∈ subs →
      AddUserToCapacityChecker (some subs) username namespc =
        (some subs, some duplicateUserMsg)) ∧
    (¬ newCapacitySubject username namespc ∈ subs →
      AddUserToCapacityChecker (some subs) username namespc =
        (some (subs ++ [newCapacitySubject username namespc]), none)) ∧
    noDupPairs (addUserSubjects subs username namespc).1 := by
  refine ⟨hnd.sublist (List.filter_sublist _), rfl, ?_, ?_, ?_⟩
  · intro hmem
    have hc : subs.contains (newCapacitySubject username namespc) = true :=
      List.elem_iff.mpr hmem
    simp only [AddUserToCapacityChecker, addUserSubjects]
    rw [if_pos hc]
  · intro hmem
    have hc : ¬ subs.contains (newCapacitySubject username namespc) = true :=
      fun hc => hmem (List.elem_iff.mp hc)
    simp only [AddUserToCapacityChecker, addUserSubjects]
    rw [if_neg hc]
  · unfold addUserSubjects
    by_cases hc : subs.contains (newCapacitySubject username namespc) = true
    · rw [if_pos hc]
      exact hnd
    · rw [if_neg hc]
      unfold noDupPairs
      rw [List.pairwise_append]
      refine ⟨hnd, by simp, ?_⟩
      intro a ha b hb
      have hb' : b = newCapacitySubject username namespc := List.mem_singleton.mp hb
      subst hb'
      rintro ⟨hn, hns⟩
      apply hc
      apply List.elem_iff.mpr
      have ha' : a = newCapacitySubject username namespc := by
        have hk := hsa a ha
        cases a with
        | mk k n nsp =>
          simp only [newCapacitySubject] at hn hns ⊢
          simp only at hk
          rw [hk, hn, hns]
      rw [← ha']
      exact ha

/-- Subject list for the C7 witness: `bob` is already registered. -/
def bobSubs : List Subject :=
  [{ kind := "ServiceAccount", name := "bob", namespc := "mc-bob" }]

/-- Witness for C7: adding `bob` a second time surfaces the duplicate
error and leaves the list unchanged. -/
theorem capacityChecker_noDup_witness :
    AddUserToCapacityChecker (some bobSubs) "bob" "mc-bob" =
      (some bobSubs, some duplicateUserMsg) :=
  (capacityChecker_noDup bobSubs "bob" "mc-bob" (by simp [bobSubs])
    (by simp [noDupPairs, bobSubs])).2.2.1 (by simp [bobSubs, newCapacitySubject])

/-- C8: `RemoveUserFromCapacityChecker` removes exactly the subjects
whose name and namespace both match; with no matching entry it succeeds
and leaves the list in the same filtered state; and it is idempotent. -/
theorem removeUser_exact_idempotent (subs : List Subject) (username namespc : String) :
    (∀ s, s ∈ removeUserSubjects subs username namespc ↔
        s ∈ subs ∧ ¬(s.name = username ∧ s.namespc = namespc)) ∧
    RemoveUserFromCapacityChecker (some subs) username namespc =
      (some (removeUserSubjects subs username namespc), none) ∧
    ((∀ s ∈ subs, ¬(s.name = username ∧ s.namespc = namespc)) →
      removeUserSubjects subs username namespc = subs) ∧
    removeUserSubjects (removeUserSubjects subs username namespc) username namespc =
      removeUserSubjects subs username namespc := by
  refine ⟨?_, rfl, ?_, ?_⟩
  · intro s
    unfold removeUserSubjects
    rw [List.mem_filter, removePred_iff]
  · intro hnone
    apply List.filter_eq_self.mpr
    intro s hs
    exact (removePred_iff s username namespc).mpr (hnone s hs)
  · apply List.filter_eq_self.mpr
    intro s hs
    exact (List.mem_filter.mp hs).2

/-- Witness for C8: removing the unregistered `bob` from a list holding
only `alice` is a no-op without error. -/
theorem removeUser_exact_idempotent_witness :
    removeUserSubjects
      [{ kind := "ServiceAccount", name := "alice", namespc := "mc-alice" }]
      "bob" "mc-bob" =
      [{ kind := "ServiceAccount", name := "alice", namespc := "mc-alice" }] :=
  (removeUser_exact_idempotent
    [{ kind := "ServiceAccount", name := "alice", namespc := "mc-alice" }]
    "bob" "mc-bob").2.2.1 (by simp)

/-! ### Lemmas for C9 -/

/-- On ASCII characters Go's `unicode.IsLower || unicode.IsDigit` agrees
with the tenant-name character test. -/
theorem ascii_char_iff (c : Char) (h : c.toNat ≤ 0x7F) :
    (goIsLower c || goIsDigit c) = usernameCharOk c := by
  rw [Bool.eq_iff_iff]
  unfold goIsLower goIsDigit usernameCharOk
  simp only [Bool.or_eq_true, Bool.and_eq_true, decide_eq_true_eq, beq_iff_eq]
  omega

/-- C9 counterexample: the non-ASCII name `"abcé"` has (byte) length in
[3, 16] and is accepted by `ValidateServerName` (Go's `unicode.IsLower`
accepts `é`), but the tenant-name character rules of `ValidateUsername`
reject it — so the claimed equivalence fails. -/
theorem serverName_charRules_counterexample :
    (3 ≤ goLen "abcé".data ∧ goLen "abcé".data ≤ 16) ∧
    ValidateServerName "abcé" = none ∧
    ¬ (specRuleCharset "abcé" ∧ specRuleStart "abcé") ∧
    ValidateUsername "abcé" = some usernameCharsetMsg := by
  refine ⟨by decide, by decide, ?_, by decide⟩
  rintro ⟨hchar, -⟩
  have : usernameCharOk 'é' = true := hchar 'é' (by decide)
  exact absurd this (by decide)

/-- C9 amended: restricted to strings of ASCII characters (of length 3
to 16), `ValidateServerName` accepts exactly the strings satisfying the
tenant-name character rules of `ValidateUsername`; on non-ASCII strings
`ValidateServerName` is strictly more permissive (see the
counterexample). -/
theorem serverName_tenantRules_ascii (name : String)
    (hascii : ∀ c ∈ name.data, c.toNat ≤ 0x7F)
    (hlen3 : 3 ≤ goLen name.data) (hlen16 : goLen name.data ≤ 16) :
    ValidateServerName name = none ↔ (specRuleCharset name ∧ specRuleStart name) := by
  unfold ValidateServerName
  rw [if_neg (by
    simp only [MinServerNameLength, MaxServerNameLength, Bool.or_eq_true,
      decide_eq_true_eq]
    omega)]
  by_cases hall : name.data.all usernameCharOk = true
  · have hall' : name.data.all (fun r => goIsLower r || goIsDigit r) = true := by
      rw [List.all_eq_true] at hall ⊢
      intro c hc
      rw [ascii_char_iff c (hascii c hc)]
      exact hall c hc
    rw [if_neg (by simp [hall'])]
    obtain ⟨c, cs, hu⟩ := List.exists_cons_of_ne_nil (ne_nil_of_goLen name.data hlen3)
    have hcascii : c.toNat ≤ 0x7F := hascii c (by rw [hu]; exact List.mem_cons_self c cs)
    have hfb : goFirstByteIsLower name.data =
        (decide (0x61 ≤ c.toNat) && decide (c.toNat ≤ 0x7A)) := by
      rw [hu]
      simp only [goFirstByteIsLower]
      rw [utf8FirstByte_ascii c (by omega), Char.ofNat_toNat]
      rw [Bool.eq_iff_iff]
      unfold goIsLower
      simp only [Bool.or_eq_true, Bool.and_eq_true, decide_eq_true_eq, beq_iff_eq]
      omega
    by_cases hstart : 0x61 ≤ c.toNat ∧ c.toNat ≤ 0x7A
    · rw [if_neg (by rw [hfb]; simp [hstart.1, hstart.2])]
      apply iff_of_true rfl
      refine ⟨fun x hx => List.all_eq_true.mp hall x hx, ?_⟩
      unfold specRuleStart
      rw [hu]
      exact hstart
    · rw [if_pos (by
        rw [hfb]
        simp only [Bool.not_eq_true', Bool.and_eq_false_iff, decide_eq_false_iff_not]
        omega)]
      apply iff_of_false (by simp)
      rintro ⟨-, hs⟩
      unfold specRuleStart at hs
      rw [hu] at hs
      exact hstart hs
  · have hallgo : name.data.all (fun r => goIsLower r || goIsDigit r) = false := by
      rw [Bool.eq_false_iff]
      intro hg
      apply hall
      rw [List.all_eq_true] at hg ⊢
      intro c hc
      rw [← ascii_char_iff c (hascii c hc)]
      exact hg c hc
    rw [if_pos (by rw [hallgo]; rfl)]
    apply iff_of_false (by simp)
    rintro ⟨hchar, -⟩
    exact hall (List.all_eq_true.mpr hchar)

/-- Witness for the amended C9: on the ASCII string `"abc"` the two
validators' character rules agree. -/
theorem serverName_tenantRules_ascii_witness :
    ValidateServerName "abc" = none ↔ (specRuleCharset "abc" ∧ specRuleStart "abc") :=
  serverName_tenantRules_ascii "abc" (by decide) (by decide) (by decide)

/-! ### Lemmas for C10 -/

theorem listServersLoop_no_panic (ns : NamespaceState) (l : List StatefulSet)
    (hinv : ∀ sts ∈ l, ∀ svc ∈ ns.services, svc.name = sts.name → svc.ports ≠ []) :
    ∀ n, listServersLoop ns l ≠ .error (.indexOutOfRange n) := by
  induction l with
  | nil =>
    intro n h
    simp [listServersLoop] at h
  | cons sts rest ih =>
    intro n h
    unfold listServersLoop at h
    split at h
    · simp at h
    · rename_i svc hget
      split at h
      · rename_i hports
        have hget' : ns.services.find? (fun s => s.name == sts.name) = some svc := hget
        have hmem : svc ∈ ns.services := List.mem_of_find?_eq_some hget'
        have hb0 := List.find?_some hget'
        have hname : svc.name = sts.name := eq_of_beq hb0
        exact hinv sts (List.mem_cons_self sts rest) svc hmem hname hports
      · split at h
        · rename_i e hrec
          injection h with h
          rw [h] at hrec
          exact ih (fun s hs => hinv s (List.mem_cons_of_mem sts hs)) n hrec
        · simp at h

/-- A namespace violating the one-port invariant: the Service matching
StatefulSet `srv` has an empty port list. -/
def emptyPortsNs : NamespaceState :=
  { services := [{ name := "srv", labels := [], selector := [], ports := [] }],
    statefulSets :=
      [{ name := "srv", labels := [], replicas := some 1, creationTimestamp := 0 }],
    pvcs := [] }

/-- C10: `ListServers` reads `svc.Spec.Ports[0]` unchecked, which is
safe exactly under the invariant that every workload's Service has at
least one port: every Service `CreateServer` creates carries exactly one
port entry, and under the invariant `ListServers` never hits the
out-of-range access; on a state where a matching Service has an empty
port list, the access is out of range. -/
theorem listServers_port_index (ns : NamespaceState) (serverName username : String)
    (nodePort : Int) (now : Nat) :
    ((serverService serverName username nodePort).ports.length = 1) ∧
    ((CreateServer ns serverName username nodePort now).2 = none →
      ∀ svc ∈ (CreateServer ns serverName username nodePort now).1.services,
        svc.name = serverName →
          svc.ports = [{ portName := CommonLabelValuePod, port := MinecraftPort,
                         targetPort := MinecraftPort, nodePort := nodePort }]) ∧
    ((∀ sts ∈ ns.statefulSets, ∀ svc ∈ ns.services,
        svc.name = sts.name → svc.ports ≠ []) →
      ∀ n, ListServers ns ≠ .error (.indexOutOfRange n)) ∧
    ListServers emptyPortsNs = .error (.indexOutOfRange "srv") := by
  refine ⟨rfl, ?_, ?_, rfl⟩
  · intro hok svc hmem hname
    cases hsvc : ns.services.any (fun s => s.name == serverName) with
    | true =>
      have hred : CreateServer ns serverName username nodePort now =
          (ns, some ("failed to create server (nodeport service): " ++
            alreadyExistsErr)) := by
        unfold CreateServer svcCreate
        simp only [serverService, hsvc, if_true]
      rw [hred] at hok
      exact absurd hok (by simp)
    | false =>
      cases hsts : ns.statefulSets.any (fun s => s.name == serverName) with
      | true =>
        have hred : (CreateServer ns serverName username nodePort now).2 =
            some ("failed to create server (statefulset): " ++ alreadyExistsErr) := by
          unfold CreateServer svcCreate stsCreate svcDelete
          simp [serverService, serverStatefulSet, hsvc, hsts]
        rw [hred] at hok
        exact absurd hok (by simp)
      | false =>
        have hred : CreateServer ns serverName username nodePort now =
            ({ services := ns.services ++ [serverService serverName username nodePort],
               statefulSets :=
                 ns.statefulSets ++ [serverStatefulSet serverName username now],
               pvcs := ns.pvcs }, none) := by
          unfold CreateServer svcCreate stsCreate
          simp [serverService, serverStatefulSet, hsvc, hsts]
        rw [hred] at hmem
        rcases List.mem_append.mp hmem with hm | hm
        · exfalso
          have hf := List.any_eq_false.mp hsvc svc hm
          rw [hname] at hf
          simp at hf
        · rw [List.mem_singleton.mp hm]
          rfl
  · exact listServersLoop_no_panic ns ns.statefulSets

/-- Witness for C10: `oneServerNs` satisfies the one-port invariant, so
listing it cannot hit the out-of-range port access. -/
theorem listServers_port_index_witness :
    ListServers oneServerNs ≠ .error (.indexOutOfRange "srv") :=
  (listServers_port_index oneServerNs "srv" "alice" 30000 1).2.2.1
    (by simp [oneServerNs]) "srv"

end Kubecraft
